import Mathlib

/-! Shallow embedding of the multicluster proxy service: the Kueue-workload
resolver, the worker-config registry, the authorization helpers, and the
HTTP request handlers, translated from the Go sources. -/

namespace ProxyAAE

/-- An owner reference on a Kubernetes object (only the fields the code reads). -/
structure OwnerReference where
  kind : String
  name : String
deriving DecidableEq, Repr

/-- Workload status: the code only tests `Status.Admission` for nil-ness and
reads `Status.ClusterName` (a nullable string), so admission is modelled as
`Option Unit`. -/
structure WorkloadStatus where
  admission : Option Unit
  clusterName : Option String
deriving DecidableEq, Repr

/-- A Kueue Workload, restricted to the fields the resolver reads. -/
structure Workload where
  name : String
  ownerReferences : List OwnerReference
  status : WorkloadStatus
deriving DecidableEq, Repr

/-- The resolver's result type (Go struct `WorkerCluster`). -/
structure WorkerCluster where
  name : String
  state : String
  nominatedClusters : List String
  workloadName : String
deriving DecidableEq, Repr

/-- Whether a workload carries an owner reference of kind `PipelineRun` with
the given name (the inner loop of `findWorkloadByPipelineRun`). -/
def matchesOwner (pipelineRunName : String) (w : Workload) : Bool :=
  w.ownerReferences.any (fun o => o.kind == "PipelineRun" && o.name == pipelineRunName)

/-- `findWorkloadByPipelineRun`: scan the namespace's workloads for the first
one owned by the named PipelineRun.  The Go function takes the namespace and
lists workloads there; here the observed workload list of that namespace is
the argument. -/
def findWorkloadByPipelineRun (workloads : List Workload) (pipelineRunName : String) :
    Option Workload :=
  workloads.find? (matchesOwner pipelineRunName)

/-- `ResolveWorkerCluster`: classify the PipelineRun's workload into
not-found (error), `Dispatching`, or `Admitted` with the cluster name taken
from `Status.ClusterName` (empty string when nil). -/
def ResolveWorkerCluster (workloads : List Workload) (pipelineRunName : String) :
    Except String WorkerCluster :=
  match findWorkloadByPipelineRun workloads pipelineRunName with
  | none => .error ("no workload found for PipelineRun " ++ pipelineRunName)
  | some workload =>
    match workload.status.admission with
    | some _ =>
      let clusterName :=
        match workload.status.clusterName with
        | some n => n
        | none => ""
      .ok { name := clusterName, state := "Admitted",
            nominatedClusters := [], workloadName := workload.name }
    | none =>
      .ok { name := "", state := "Dispatching",
            nominatedClusters := [], workloadName := workload.name }

/-- JSON values appearing in the `WorkerCluster` encoding. -/
inductive JValue where
  | str : String → JValue
  | arr : List String → JValue
deriving DecidableEq, Repr

/-- The JSON object produced by `json.Encoder` for a `WorkerCluster`: field
order follows the struct, and `name`, `nominatedClusters`, `workloadName`
carry `omitempty`. -/
def WorkerCluster.jsonFields (wc : WorkerCluster) : List (String × JValue) :=
  (if wc.name = "" then [] else [("name", JValue.str wc.name)])
    ++ [("state", JValue.str wc.state)]
    ++ (if wc.nominatedClusters = [] then []
        else [("nominatedClusters", JValue.arr wc.nominatedClusters)])
    ++ (if wc.workloadName = "" then [] else [("workloadName", JValue.str wc.workloadName)])

/-- A parsed worker-cluster client configuration (`rest.Config`); the proxy
treats it opaquely, so only an abstract host is kept. -/
structure RestConfig where
  host : String
deriving DecidableEq, Repr

/-- Go-map lookup on an association list. -/
def getAssoc {α : Type} (m : List (String × α)) (k : String) : Option α :=
  match m with
  | [] => none
  | (k0, v0) :: rest => if k0 = k then some v0 else getAssoc rest k

/-- Go-map assignment `m[k] = v` on an association list. -/
def setAssoc {α : Type} (m : List (String × α)) (k : String) (v : α) :
    List (String × α) :=
  match m with
  | [] => [(k, v)]
  | (k0, v0) :: rest => if k0 = k then (k, v) :: rest else (k0, v0) :: setAssoc rest k v

/-- Go-map deletion `delete(m, k)` on an association list. -/
def delAssoc {α : Type} (m : List (String × α)) (k : String) : List (String × α) :=
  match m with
  | [] => []
  | (k0, v0) :: rest => if k0 = k then delAssoc rest k else (k0, v0) :: delAssoc rest k

/-- `WorkerConfigRegistry.GetConfig`: look the cluster up in the cached map,
an absent entry is an error. -/
def GetConfig (configs : List (String × RestConfig)) (clusterName : String) :
    Except String RestConfig :=
  match getAssoc configs clusterName with
  | some config => .ok config
  | none => .error ("worker config not found for cluster: " ++ clusterName)

/-- The location pointer inside a MultiKueueCluster spec. -/
structure KubeConfigRef where
  locationType : String
  location : String
deriving DecidableEq, Repr

/-- A MultiKueueCluster record (name plus its kubeconfig location pointer). -/
structure MultiKueueCluster where
  name : String
  kubeConfig : KubeConfigRef
deriving DecidableEq, Repr

/-- A secret in the workers-secret namespace: a name and a data map
(key to payload bytes, bytes modelled as a string). -/
structure Secret where
  name : String
  data : List (String × String)
deriving DecidableEq, Repr

/-- The external state the registry refresh reads: the MultiKueueCluster
list, the secrets of the configured namespace by name, and the kubeconfig
parser (`clientcmd.RESTConfigFromKubeConfig`, abstracted as a function to
`Option`, `none` meaning a parse error). -/
structure RegistryEnv where
  clusters : List MultiKueueCluster
  secrets : List (String × Secret)
  parseKubeconfig : String → Option RestConfig

/-- Resolution of one cluster's configuration inside `LoadConfigs`: each
failure branch (`continue` in Go) yields `none`. -/
def resolveClusterConfig (env : RegistryEnv) (cluster : MultiKueueCluster) :
    Option RestConfig :=
  if cluster.kubeConfig.locationType ≠ "Secret" then none
  else if cluster.kubeConfig.location = "" then none
  else
    match getAssoc env.secrets cluster.kubeConfig.location with
    | none => none
    | some secret =>
      match getAssoc secret.data "kubeconfig" with
      | none => none
      | some kubeconfigData => env.parseKubeconfig kubeconfigData

/-- The loop body of `LoadConfigs`: a cluster whose configuration resolves
is inserted or updated in the staged map, a failing one is skipped. -/
def loadStep (env : RegistryEnv) (acc : List (String × RestConfig))
    (cluster : MultiKueueCluster) : List (String × RestConfig) :=
  match resolveClusterConfig env cluster with
  | none => acc
  | some cfg => setAssoc acc cluster.name cfg

/-- `LoadConfigs`: iterate over all MultiKueueClusters, inserting or
updating the cache entry of every cluster whose configuration resolves and
skipping the rest; entries are never deleted here. -/
def LoadConfigs (env : RegistryEnv) (configs : List (String × RestConfig)) :
    List (String × RestConfig) :=
  env.clusters.foldl (loadStep env) configs

/-- One event of the MultiKueueCluster watch feed. -/
inductive WatchEvent where
  | added (cluster : MultiKueueCluster)
  | modified (cluster : MultiKueueCluster)
  | deleted (cluster : MultiKueueCluster)

/-- One step of `watchMultiKueueClusters`: ADDED and MODIFIED trigger a full
`LoadConfigs` resync; DELETED removes exactly the deleted cluster's entry. -/
def watchStep (env : RegistryEnv) (configs : List (String × RestConfig))
    (event : WatchEvent) : List (String × RestConfig) :=
  match event with
  | .added _ => LoadConfigs env configs
  | .modified _ => LoadConfigs env configs
  | .deleted cluster => delAssoc configs cluster.name

/-- Split a character list at every occurrence of a separator character;
the result always has at least one part. -/
def splitChars (sep : Char) : List Char → List (List Char)
  | [] => [[]]
  | c :: cs =>
    if c = sep then [] :: splitChars sep cs
    else
      match splitChars sep cs with
      | [] => [[c]]
      | part0 :: rest => (c :: part0) :: rest

/-- `strings.Split(s, sep)` for a one-character separator. -/
def goSplit (s : String) (sep : Char) : List String :=
  (splitChars sep s.toList).map String.mk

/-- ASCII lowering of one character. -/
def charToLowerAscii (c : Char) : Char :=
  if 'A' ≤ c ∧ c ≤ 'Z' then Char.ofNat (c.toNat + 32) else c

/-- `strings.ToLower`, on the ASCII range the code compares against. -/
def toLowerAscii (s : String) : String :=
  String.mk (s.toList.map charToLowerAscii)

/-- `strings.HasSuffix(s, suffix)`. -/
def goEndsWith (s sfx : String) : Bool :=
  List.isPrefixOf sfx.toList.reverse s.toList.reverse

/-- `strings.SplitN(s, " ", 2)`: at most two parts, the second keeps any
further spaces. -/
def splitN2 (s : String) : List String :=
  match goSplit s ' ' with
  | [] => []
  | [part0] => [part0]
  | part0 :: rest => [part0, String.intercalate " " rest]

/-- `extractBearerToken`: empty header, or a header that is not a two-part
`bearer` (case-insensitive) value, yields the empty token. -/
def extractBearerToken (authHeader : String) : String :=
  if authHeader = "" then ""
  else
    match splitN2 authHeader with
    | [p0, p1] => if toLowerAscii p0 = "bearer" then p1 else ""
    | _ => ""

/-- Common shape of `CheckPipelineRunAccess` / `CheckPodAccess` /
`CheckPodLogsAccess`: an empty extracted token is an immediate denial,
otherwise the SelfSubjectAccessReview outcome (abstracted as a boolean,
`false` covering both an errored and a denied review) decides. -/
def checkAccess (authHeader : String) (ssarAllowed : Bool) : Bool :=
  if extractBearerToken authHeader = "" then false else ssarAllowed

/-- `CheckPipelineRunAccess` (SSAR on `tekton.dev` pipelineruns). -/
def checkPipelineRunAccess (authHeader : String) (ssarAllowed : Bool) : Bool :=
  checkAccess authHeader ssarAllowed

/-- `CheckPodAccess` (SSAR on core pods). -/
def checkPodAccess (authHeader : String) (ssarAllowed : Bool) : Bool :=
  checkAccess authHeader ssarAllowed

/-- `CheckPodLogsAccess` (SSAR on pods/log). -/
def checkPodLogsAccess (authHeader : String) (ssarAllowed : Bool) : Bool :=
  checkAccess authHeader ssarAllowed

/-- The `corev1.PodLogOptions` the log handlers build for the downstream
request (`sinceTimeSet` records whether `SinceTime` was populated). -/
structure PodLogOptions where
  container : String
  tailLines : Option Int
  follow : Bool
  sinceTimeSet : Bool
deriving DecidableEq, Repr

/-- Observable outcome of one handler invocation: HTTP status, the
application-set response headers, the JSON body when the handler itself
encodes one, how many resolver lookups and downstream worker-cluster
attempts were made, and the log options used for a downstream log call. -/
structure HttpResult where
  status : Nat
  headers : List (String × String) := []
  jsonBody : Option (List (String × JValue)) := none
  resolverCalls : Nat := 0
  downstreamAttempts : Nat := 0
  logOptions : Option PodLogOptions := none
deriving DecidableEq, Repr

/-- The per-request environment: the observed workload list of the request's
namespace, the registry cache, the SSAR outcome for this caller, and whether
the downstream worker-cluster call and the WebSocket upgrade succeed. -/
structure Env where
  workloads : List Workload
  configs : List (String × RestConfig)
  ssarAllowed : Bool
  downstreamOk : Bool
  upgradeOk : Bool
deriving Repr

/-- The query parameters the log handlers read (`""` when absent, as
`url.Values.Get` returns). -/
structure LogsQuery where
  pod : String
  container : String
  pipelineRun : String
  sinceSeconds : String
  tailLines : String
deriving DecidableEq, Repr

/-- Digit run to a natural number, as `strconv` accumulates base-10 digits. -/
def digitsToNat (cs : List Char) : Nat :=
  cs.foldl (fun a c => a * 10 + (c.toNat - 48)) 0

/-- Parse an optional-signless digit run with a given sign, rejecting empty
or non-digit input and values outside the signed 64-bit range. -/
def parseDigits (cs : List Char) (sign : Int) : Option Int :=
  if cs = [] then none
  else if cs.all Char.isDigit then
    let v : Int := sign * (digitsToNat cs : Int)
    if v < -(2 ^ 63) ∨ 2 ^ 63 - 1 < v then none else some v
  else none

/-- `strconv.ParseInt(s, 10, 64)`: optional sign, base-10 digits, 64-bit
range; anything else is an error (`none`). -/
def parseGoInt64 (s : String) : Option Int :=
  match s.toList with
  | [] => none
  | '+' :: rest => parseDigits rest 1
  | '-' :: rest => parseDigits rest (-1)
  | cs => parseDigits cs 1

/-- `handleResolve`: a resolver error is 404; `Dispatching` is 409 and
`Admitted` 200, both with the JSON-encoded `WorkerCluster` body, and the
`X-Worker-Cluster` header only when the resolved name is non-empty. -/
def handleResolve (workloads : List Workload) (pipelineRunName : String) : HttpResult :=
  match ResolveWorkerCluster workloads pipelineRunName with
  | .error _ => { status := 404, resolverCalls := 1 }
  | .ok workerCluster =>
    { status := if workerCluster.state = "Dispatching" then 409 else 200,
      headers := [("Content-Type", "application/json")]
        ++ (if workerCluster.name = "" then []
            else [("X-Worker-Cluster", workerCluster.name)]),
      jsonBody := some workerCluster.jsonFields,
      resolverCalls := 1 }

/-- `handleTaskRuns`: resolve (404 on error), require `Admitted` (else 409),
require a registry entry (else 424), then one downstream list attempt whose
failure is surfaced as 500 and whose success is 200 with the
`X-Worker-Cluster` header. -/
def handleTaskRuns (env : Env) (pipelineRunName : String) : HttpResult :=
  match ResolveWorkerCluster env.workloads pipelineRunName with
  | .error _ => { status := 404, resolverCalls := 1 }
  | .ok workerCluster =>
    if workerCluster.state ≠ "Admitted" then { status := 409, resolverCalls := 1 }
    else
      match GetConfig env.configs workerCluster.name with
      | .error _ => { status := 424, resolverCalls := 1 }
      | .ok _ =>
        if env.downstreamOk then
          { status := 200,
            headers := [("Content-Type", "application/json"),
                        ("X-Worker-Cluster", workerCluster.name)],
            resolverCalls := 1, downstreamAttempts := 1 }
        else { status := 500, resolverCalls := 1, downstreamAttempts := 1 }

/-- `handlePipelineRunPods`: same gating and outcome shape as
`handleTaskRuns`, listing pods instead of taskruns. -/
def handlePipelineRunPods (env : Env) (pipelineRunName : String) : HttpResult :=
  match ResolveWorkerCluster env.workloads pipelineRunName with
  | .error _ => { status := 404, resolverCalls := 1 }
  | .ok workerCluster =>
    if workerCluster.state ≠ "Admitted" then { status := 409, resolverCalls := 1 }
    else
      match GetConfig env.configs workerCluster.name with
      | .error _ => { status := 424, resolverCalls := 1 }
      | .ok _ =>
        if env.downstreamOk then
          { status := 200,
            headers := [("Content-Type", "application/json"),
                        ("X-Worker-Cluster", workerCluster.name)],
            resolverCalls := 1, downstreamAttempts := 1 }
        else { status := 500, resolverCalls := 1, downstreamAttempts := 1 }

/-- `handlePodStatus`: the PipelineRun arrives as a query parameter (400
when missing), a resolver error here is 500, then the same admitted/registry
gating and a single downstream get. -/
def handlePodStatus (env : Env) (pipelineRunParam podName : String) : HttpResult :=
  if pipelineRunParam = "" then { status := 400 }
  else
    match ResolveWorkerCluster env.workloads pipelineRunParam with
    | .error _ => { status := 500, resolverCalls := 1 }
    | .ok workerCluster =>
      if workerCluster.state ≠ "Admitted" then { status := 409, resolverCalls := 1 }
      else
        match GetConfig env.configs workerCluster.name with
        | .error _ => { status := 424, resolverCalls := 1 }
        | .ok _ =>
          if env.downstreamOk then
            { status := 200,
              headers := [("Content-Type", "application/json"),
                          ("X-Worker-Cluster", workerCluster.name)],
              resolverCalls := 1, downstreamAttempts := 1 }
          else { status := 500, resolverCalls := 1, downstreamAttempts := 1 }

/-- The part of `handleLogsFetch` after its two query-parameter parses: the
PipelineRun query parameter is required (400), a resolver error is 500, then
the admitted/registry gating, the `PodLogOptions` with `SinceTime` set only
for a strictly positive `sinceSeconds`, and a single downstream stream
attempt (500 on failure, 200 with the cluster header on success). -/
def logsFetchAfterParams (env : Env) (pipelineRunName : String)
    (sinceSeconds tailLines : Int) (podName containerName : String) : HttpResult :=
  if pipelineRunName = "" then { status := 400 }
  else
    match ResolveWorkerCluster env.workloads pipelineRunName with
    | .error _ => { status := 500, resolverCalls := 1 }
    | .ok workerCluster =>
      if workerCluster.state ≠ "Admitted" then { status := 409, resolverCalls := 1 }
      else
        match GetConfig env.configs workerCluster.name with
        | .error _ => { status := 424, resolverCalls := 1 }
        | .ok _ =>
          let logOptions : PodLogOptions :=
            { container := containerName, tailLines := some tailLines,
              follow := false, sinceTimeSet := sinceSeconds > 0 }
          if env.downstreamOk then
            { status := 200,
              headers := [("Content-Type", "text/plain"),
                          ("X-Worker-Cluster", workerCluster.name)],
              resolverCalls := 1, downstreamAttempts := 1,
              logOptions := some logOptions }
          else
            { status := 500, resolverCalls := 1, downstreamAttempts := 1,
              logOptions := some logOptions }

/-- `handleLogsFetch`: `sinceSeconds` and `tailLines` are parsed leniently —
a missing parameter or a parse failure keeps the zero / default value — and
the rest of the handler is `logsFetchAfterParams`. -/
def handleLogsFetch (env : Env) (defaultLogTailLines : Int) (q : LogsQuery)
    (podName containerName : String) : HttpResult :=
  let sinceSeconds : Int :=
    if q.sinceSeconds ≠ "" then
      match parseGoInt64 q.sinceSeconds with
      | some since => since
      | none => 0
    else 0
  let tailLines : Int :=
    if q.tailLines ≠ "" then
      match parseGoInt64 q.tailLines with
      | some tail => tail
      | none => defaultLogTailLines
    else defaultLogTailLines
  logsFetchAfterParams env q.pipelineRun sinceSeconds tailLines podName containerName

/-- `handleLogsStream`: same required PipelineRun parameter and gating, a
follow-mode downstream stream attempt (500 on failure), then the WebSocket
upgrade; the handler passes a nil response-header set to the upgrade, so a
successful upgrade carries no application headers. -/
def handleLogsStream (env : Env) (q : LogsQuery) (podName containerName : String) :
    HttpResult :=
  if q.pipelineRun = "" then { status := 400 }
  else
    match ResolveWorkerCluster env.workloads q.pipelineRun with
    | .error _ => { status := 500, resolverCalls := 1 }
    | .ok workerCluster =>
      if workerCluster.state ≠ "Admitted" then { status := 409, resolverCalls := 1 }
      else
        match GetConfig env.configs workerCluster.name with
        | .error _ => { status := 424, resolverCalls := 1 }
        | .ok _ =>
          let logOptions : PodLogOptions :=
            { container := containerName, tailLines := none,
              follow := true, sinceTimeSet := false }
          if env.downstreamOk then
            if env.upgradeOk then
              { status := 101, headers := [],
                resolverCalls := 1, downstreamAttempts := 1,
                logOptions := some logOptions }
            else
              { status := 400, resolverCalls := 1, downstreamAttempts := 1,
                logOptions := some logOptions }
          else { status := 500, resolverCalls := 1, downstreamAttempts := 1 }

/-- `handlePipelineRunRequest`: split the resource path, 400 when too short,
authorize the caller on the PipelineRun (403 on denial) before any
sub-resource handler runs, then dispatch on the sub-path. -/
def handlePipelineRunRequest (env : Env) (authHeader resourcePath : String) :
    HttpResult :=
  let pathParts := goSplit resourcePath '/'
  if pathParts.length < 2 then { status := 400 }
  else
    let pipelineRunName := pathParts.getD 1 ""
    let subPath := String.intercalate "/" (pathParts.drop 2)
    if checkPipelineRunAccess authHeader env.ssarAllowed = false then { status := 403 }
    else
      match subPath with
      | "resolve" => handleResolve env.workloads pipelineRunName
      | "taskruns" => handleTaskRuns env pipelineRunName
      | "pods" => handlePipelineRunPods env pipelineRunName
      | _ => { status := 404 }

/-- `handlePodRequest`: split the resource path, 400 when too short,
authorize the caller on the pod (403 on denial) before the status handler
runs. -/
def handlePodRequest (env : Env) (authHeader resourcePath pipelineRunParam : String) :
    HttpResult :=
  let pathParts := goSplit resourcePath '/'
  if pathParts.length < 2 then { status := 400 }
  else
    let podName := pathParts.getD 1 ""
    let subPath := String.intercalate "/" (pathParts.drop 2)
    if checkPodAccess authHeader env.ssarAllowed = false then { status := 403 }
    else
      match subPath with
      | "status" => handlePodStatus env pipelineRunParam podName
      | _ => { status := 404 }

/-- `handleLogsRequest`: the pod query parameter is required (400),
authorization on pod logs (403 on denial) happens before either log handler
runs, then a `/stream` suffix selects the WebSocket handler. -/
def handleLogsRequest (env : Env) (defaultLogTailLines : Int)
    (authHeader resourcePath : String) (q : LogsQuery) : HttpResult :=
  if q.pod = "" then { status := 400 }
  else if checkPodLogsAccess authHeader env.ssarAllowed = false then { status := 403 }
  else if goEndsWith resourcePath "/stream" = true then handleLogsStream env q q.pod q.container
  else handleLogsFetch env defaultLogTailLines q q.pod q.container

/-! Concrete fixtures used by witnesses and counterexamples. -/

/-- A workload admitted to cluster `c1`, owned by PipelineRun `pr1`. -/
def wlAdmitted : Workload :=
  { name := "w1",
    ownerReferences := [{ kind := "PipelineRun", name := "pr1" }],
    status := { admission := some (), clusterName := some "c1" } }

/-- A workload still pending (admission unset), owned by PipelineRun `pr2`. -/
def wlDispatching : Workload :=
  { name := "w2",
    ownerReferences := [{ kind := "PipelineRun", name := "pr2" }],
    status := { admission := none, clusterName := none } }

/-- An admitted workload whose `Status.ClusterName` is nil. -/
def wlAdmittedNoCluster : Workload :=
  { name := "w3",
    ownerReferences := [{ kind := "PipelineRun", name := "pr3" }],
    status := { admission := some (), clusterName := none } }

/-- A parsed configuration for cluster `c1`. -/
def cfg1 : RestConfig := { host := "https://worker1" }

/-! Properties. -/

/-- `matchesOwner` decides the existence of a PipelineRun owner reference
with the given name. -/
theorem matchesOwner_eq_true_iff (prName : String) (w : Workload) :
    matchesOwner prName w = true
      ↔ ∃ o ∈ w.ownerReferences, o.kind = "PipelineRun" ∧ o.name = prName := by
  simp [matchesOwner, List.any_eq_true, Bool.and_eq_true, beq_iff_eq]

/-- C1: `ResolveWorkerCluster` classifies by the workload found through a
PipelineRun owner reference: no owning workload is an error; a found
workload with admission unset is `Dispatching` with the workload name and no
cluster name; with admission set it is `Admitted` with the workload name and
`Status.ClusterName` defaulted to the empty string, never an error. -/
theorem c1_resolver_classification (ws : List Workload) (prName : String) :
    ((∀ w ∈ ws, ¬ ∃ o ∈ w.ownerReferences, o.kind = "PipelineRun" ∧ o.name = prName) →
        ∃ msg, ResolveWorkerCluster ws prName = .error msg)
    ∧ (∀ w, findWorkloadByPipelineRun ws prName = some w →
        (w.status.admission = none →
          ResolveWorkerCluster ws prName =
            .ok { name := "", state := "Dispatching",
                  nominatedClusters := [], workloadName := w.name })
        ∧ (∀ a, w.status.admission = some a →
          ResolveWorkerCluster ws prName =
            .ok { name := w.status.clusterName.getD "", state := "Admitted",
                  nominatedClusters := [], workloadName := w.name })) := by
  constructor
  · intro h
    have hfind : findWorkloadByPipelineRun ws prName = none := by
      rw [findWorkloadByPipelineRun, List.find?_eq_none]
      intro w hw
      intro hmatch
      exact h w hw ((matchesOwner_eq_true_iff prName w).mp hmatch)
    exact ⟨_, by rw [ResolveWorkerCluster, hfind]⟩
  · intro w hfind
    constructor
    · intro hadm
      rw [ResolveWorkerCluster, hfind]
      simp [hadm]
    · intro a hadm
      rw [ResolveWorkerCluster, hfind]
      simp only [hadm]
      cases hcn : w.status.clusterName <;> simp [hcn, Option.getD]

/-- C1 witness: an admitted workload with a nil cluster name resolves to
`Admitted` with the empty cluster name. -/
theorem c1_resolver_classification_witness :
    ResolveWorkerCluster [wlAdmittedNoCluster] "pr3" =
      .ok { name := "", state := "Admitted",
            nominatedClusters := [], workloadName := "w3" } := by
  have h :=
    ((c1_resolver_classification [wlAdmittedNoCluster] "pr3").2
        wlAdmittedNoCluster (by decide)).2 () rfl
  simpa [wlAdmittedNoCluster] using h

/-- C9: `handleResolve` is a deterministic function of the observed workload
list, so two calls against the same unchanged workload state produce
identical responses (in particular identical bodies). -/
theorem c9_resolve_idempotent (ws1 ws2 : List Workload) (prName : String)
    (h : ws1 = ws2) :
    handleResolve ws1 prName = handleResolve ws2 prName
      ∧ (handleResolve ws1 prName).jsonBody = (handleResolve ws2 prName).jsonBody := by
  rw [h]
  exact ⟨rfl, rfl⟩

/-- C9 witness: two `/resolve` evaluations against the same one-workload
state coincide. -/
theorem c9_resolve_idempotent_witness :
    handleResolve [wlDispatching] "pr2" = handleResolve [wlDispatching] "pr2"
      ∧ (handleResolve [wlDispatching] "pr2").jsonBody
          = (handleResolve [wlDispatching] "pr2").jsonBody :=
  c9_resolve_idempotent [wlDispatching] [wlDispatching] "pr2" rfl

/-- A `Dispatching` result of the resolver always carries an empty cluster
name and no nominated clusters. -/
theorem resolve_dispatching_shape (ws : List Workload) (prName : String)
    (wc : WorkerCluster) (hok : ResolveWorkerCluster ws prName = .ok wc)
    (hst : wc.state = "Dispatching") :
    wc.name = "" ∧ wc.nominatedClusters = [] := by
  cases hfind : findWorkloadByPipelineRun ws prName with
  | none => simp [ResolveWorkerCluster, hfind] at hok
  | some w =>
    cases hadm : w.status.admission with
    | some a =>
      simp only [ResolveWorkerCluster, hfind, hadm, Except.ok.injEq] at hok
      rw [← hok] at hst
      simp at hst
    | none =>
      simp only [ResolveWorkerCluster, hfind, hadm, Except.ok.injEq] at hok
      rw [← hok]
      exact ⟨rfl, rfl⟩

/-- C3: on `/resolve`, a resolver error yields 404; a `Dispatching`
assignment yields 409 with a JSON body holding exactly the `state` and
`workloadName` fields; an `Admitted` assignment yields 200 with the encoded
assignment body. -/
theorem c3_resolve_endpoint (ws : List Workload) (prName : String) :
    ((∃ msg, ResolveWorkerCluster ws prName = .error msg) →
        (handleResolve ws prName).status = 404)
    ∧ (∀ wc, ResolveWorkerCluster ws prName = .ok wc → wc.state = "Dispatching" →
        wc.workloadName ≠ "" →
        (handleResolve ws prName).status = 409
        ∧ (handleResolve ws prName).jsonBody =
            some [("state", JValue.str "Dispatching"),
                  ("workloadName", JValue.str wc.workloadName)])
    ∧ (∀ wc, ResolveWorkerCluster ws prName = .ok wc → wc.state = "Admitted" →
        (handleResolve ws prName).status = 200
        ∧ (handleResolve ws prName).jsonBody = some wc.jsonFields) := by
  refine ⟨?_, ?_, ?_⟩
  · rintro ⟨msg, herr⟩
    simp [handleResolve, herr]
  · intro wc hok hst hwl
    obtain ⟨hname, hnom⟩ := resolve_dispatching_shape ws prName wc hok hst
    constructor
    · simp [handleResolve, hok, hst]
    · simp [handleResolve, hok, WorkerCluster.jsonFields, hname, hnom, hst, hwl]
  · intro wc hok hst
    constructor
    · simp [handleResolve, hok, hst]
    · simp [handleResolve, hok]

/-- C3 witness: a dispatching workload makes `/resolve` answer 409 with the
two-field body. -/
theorem c3_resolve_endpoint_witness :
    (handleResolve [wlDispatching] "pr2").status = 409
      ∧ (handleResolve [wlDispatching] "pr2").jsonBody =
          some [("state", JValue.str "Dispatching"),
                ("workloadName", JValue.str "w2")] := by
  have h :=
    (c3_resolve_endpoint [wlDispatching] "pr2").2.1
      { name := "", state := "Dispatching", nominatedClusters := [], workloadName := "w2" }
      rfl rfl (by decide)
  simpa using h

/-- A denied access check makes `handlePipelineRunRequest` answer 400 or
403 before any sub-handler runs. -/
theorem handlePipelineRunRequest_denied (env : Env) (authHeader resourcePath : String)
    (hdeny : checkAccess authHeader env.ssarAllowed = false) :
    handlePipelineRunRequest env authHeader resourcePath =
      if (goSplit resourcePath '/').length < 2 then { status := 400 }
      else { status := 403 } := by
  rw [handlePipelineRunRequest]
  by_cases hlen : (goSplit resourcePath '/').length < 2
  · simp [hlen]
  · simp [hlen, checkPipelineRunAccess, hdeny]

/-- A denied access check makes `handlePodRequest` answer 400 or 403 before
any sub-handler runs. -/
theorem handlePodRequest_denied (env : Env)
    (authHeader resourcePath pipelineRunParam : String)
    (hdeny : checkAccess authHeader env.ssarAllowed = false) :
    handlePodRequest env authHeader resourcePath pipelineRunParam =
      if (goSplit resourcePath '/').length < 2 then { status := 400 }
      else { status := 403 } := by
  rw [handlePodRequest]
  by_cases hlen : (goSplit resourcePath '/').length < 2
  · simp [hlen]
  · simp [hlen, checkPodAccess, hdeny]

/-- A denied access check makes `handleLogsRequest` answer 400 or 403 before
either log handler runs. -/
theorem handleLogsRequest_denied (env : Env) (defaultTail : Int)
    (authHeader resourcePath : String) (q : LogsQuery)
    (hdeny : checkAccess authHeader env.ssarAllowed = false) :
    handleLogsRequest env defaultTail authHeader resourcePath q =
      if q.pod = "" then { status := 400 } else { status := 403 } := by
  rw [handleLogsRequest]
  by_cases hpod : q.pod = ""
  · simp [hpod]
  · simp [hpod, checkPodLogsAccess, hdeny]

/-- C2: the bearer-token extraction treats an absent/empty header or a
non-two-part / non-`bearer` header as no credential; no credential forces the
access check to deny; and on the pipelinerun, pod, and logs paths a denied
check answers 403 (for any request that reaches the check) with zero
resolver lookups and zero worker-cluster attempts. -/
theorem c2_authz_gate (env : Env) (defaultTail : Int)
    (authHeader resourcePath pipelineRunParam : String) (q : LogsQuery) :
    (extractBearerToken "" = "")
    ∧ ((∀ p0 p1, splitN2 authHeader ≠ [p0, p1]) → extractBearerToken authHeader = "")
    ∧ (∀ p0 p1, splitN2 authHeader = [p0, p1] → toLowerAscii p0 ≠ "bearer" →
        extractBearerToken authHeader = "")
    ∧ (extractBearerToken authHeader = "" →
        ∀ b, checkAccess authHeader b = false)
    ∧ (checkAccess authHeader env.ssarAllowed = false →
        ((handlePipelineRunRequest env authHeader resourcePath).resolverCalls = 0
          ∧ (handlePipelineRunRequest env authHeader resourcePath).downstreamAttempts = 0
          ∧ (¬ (goSplit resourcePath '/').length < 2 →
              (handlePipelineRunRequest env authHeader resourcePath).status = 403))
        ∧ ((handlePodRequest env authHeader resourcePath pipelineRunParam).resolverCalls = 0
          ∧ (handlePodRequest env authHeader resourcePath pipelineRunParam).downstreamAttempts = 0
          ∧ (¬ (goSplit resourcePath '/').length < 2 →
              (handlePodRequest env authHeader resourcePath pipelineRunParam).status = 403))
        ∧ ((handleLogsRequest env defaultTail authHeader resourcePath q).resolverCalls = 0
          ∧ (handleLogsRequest env defaultTail authHeader resourcePath q).downstreamAttempts = 0
          ∧ (q.pod ≠ "" →
              (handleLogsRequest env defaultTail authHeader resourcePath q).status = 403))) := by
  refine ⟨rfl, ?_, ?_, ?_, ?_⟩
  · intro hno
    by_cases hA : authHeader = ""
    · simp [extractBearerToken, hA]
    · rw [extractBearerToken, if_neg hA]
      cases hsp : splitN2 authHeader with
      | nil => rfl
      | cons p rest =>
        cases rest with
        | nil => rfl
        | cons p1 rest1 =>
          cases rest1 with
          | nil => exact absurd hsp (hno p p1)
          | cons _ _ => rfl
  · intro p0 p1 hsp hlow
    by_cases hA : authHeader = ""
    · simp [extractBearerToken, hA]
    · rw [extractBearerToken, if_neg hA, hsp]
      simp [hlow]
  · intro htok b
    simp [checkAccess, htok]
  · intro hdeny
    have h1 := handlePipelineRunRequest_denied env authHeader resourcePath hdeny
    have h2 := handlePodRequest_denied env authHeader resourcePath pipelineRunParam hdeny
    have h3 := handleLogsRequest_denied env defaultTail authHeader resourcePath q hdeny
    refine ⟨⟨?_, ?_, ?_⟩, ⟨?_, ?_, ?_⟩, ⟨?_, ?_, ?_⟩⟩
    · rw [h1]; split <;> rfl
    · rw [h1]; split <;> rfl
    · intro hlen; rw [h1, if_neg hlen]
    · rw [h2]; split <;> rfl
    · rw [h2]; split <;> rfl
    · intro hlen; rw [h2, if_neg hlen]
    · rw [h3]; split <;> rfl
    · rw [h3]; split <;> rfl
    · intro hpod; rw [h3, if_neg hpod]

/-- C2 witness: a `Basic` credential is treated as no credential and a
request bearing it is answered 403 without touching resolver or worker. -/
theorem c2_authz_gate_witness :
    (extractBearerToken "" = "")
      ∧ (checkAccess "Basic abc" true = false)
      ∧ (handlePipelineRunRequest
            { workloads := [wlAdmitted], configs := [("c1", cfg1)],
              ssarAllowed := true, downstreamOk := true, upgradeOk := true }
            "Basic abc" "pipelineruns/pr1/taskruns").status = 403 := by
  have h := c2_authz_gate
    { workloads := [wlAdmitted], configs := [("c1", cfg1)],
      ssarAllowed := true, downstreamOk := true, upgradeOk := true }
    100 "Basic abc" "pipelineruns/pr1/taskruns" ""
    { pod := "p1", container := "", pipelineRun := "pr1",
      sinceSeconds := "", tailLines := "" }
  refine ⟨h.1, ?_, ?_⟩
  · exact h.2.2.2.1 (h.2.2.1 "Basic" "abc" (by decide) (by decide)) true
  · exact (h.2.2.2.2 (h.2.2.2.1 (h.2.2.1 "Basic" "abc" (by decide) (by decide))
      true)).1.2.2 (by decide)

/-- C4: on every sub-resource handler (taskruns, pods, pod status, log
fetch, log stream), a resolved assignment that is not `Admitted` yields 409
with no downstream worker-cluster attempt, and an `Admitted` assignment
whose cluster has no registry entry yields 424 with no downstream
attempt. -/
theorem c4_subresource_gating (env : Env) (defaultTail : Int)
    (prName podName containerName : String) (q : LogsQuery) (wc : WorkerCluster)
    (hq : q.pipelineRun = prName) (hne : prName ≠ "")
    (hres : ResolveWorkerCluster env.workloads prName = .ok wc) :
    (wc.state ≠ "Admitted" →
        ((handleTaskRuns env prName).status = 409
          ∧ (handleTaskRuns env prName).downstreamAttempts = 0)
        ∧ ((handlePipelineRunPods env prName).status = 409
          ∧ (handlePipelineRunPods env prName).downstreamAttempts = 0)
        ∧ ((handlePodStatus env prName podName).status = 409
          ∧ (handlePodStatus env prName podName).downstreamAttempts = 0)
        ∧ ((handleLogsFetch env defaultTail q podName containerName).status = 409
          ∧ (handleLogsFetch env defaultTail q podName containerName).downstreamAttempts = 0)
        ∧ ((handleLogsStream env q podName containerName).status = 409
          ∧ (handleLogsStream env q podName containerName).downstreamAttempts = 0))
    ∧ (wc.state = "Admitted" → getAssoc env.configs wc.name = none →
        ((handleTaskRuns env prName).status = 424
          ∧ (handleTaskRuns env prName).downstreamAttempts = 0)
        ∧ ((handlePipelineRunPods env prName).status = 424
          ∧ (handlePipelineRunPods env prName).downstreamAttempts = 0)
        ∧ ((handlePodStatus env prName podName).status = 424
          ∧ (handlePodStatus env prName podName).downstreamAttempts = 0)
        ∧ ((handleLogsFetch env defaultTail q podName containerName).status = 424
          ∧ (handleLogsFetch env defaultTail q podName containerName).downstreamAttempts = 0)
        ∧ ((handleLogsStream env q podName containerName).status = 424
          ∧ (handleLogsStream env q podName containerName).downstreamAttempts = 0)) := by
  constructor
  · intro hstate
    refine ⟨?_, ?_, ?_, ?_, ?_⟩ <;>
      constructor <;>
      simp [handleTaskRuns, handlePipelineRunPods, handlePodStatus,
        handleLogsFetch, logsFetchAfterParams, handleLogsStream, hq, hne, hres, hstate]
  · intro hstate hcfg
    refine ⟨?_, ?_, ?_, ?_, ?_⟩ <;>
      constructor <;>
      simp [handleTaskRuns, handlePipelineRunPods, handlePodStatus,
        handleLogsFetch, logsFetchAfterParams, handleLogsStream, GetConfig,
        hq, hne, hres, hstate, hcfg]

/-- C4 witness: with a dispatching workload every sub-resource handler
answers 409 without a downstream attempt; with an admitted workload whose
cluster is absent from the registry they all answer 424 without a
downstream attempt. -/
theorem c4_subresource_gating_witness :
    (handleTaskRuns
        { workloads := [wlDispatching], configs := [], ssarAllowed := true,
          downstreamOk := true, upgradeOk := true } "pr2").status = 409
      ∧ (handleTaskRuns
          { workloads := [wlAdmitted], configs := [], ssarAllowed := true,
            downstreamOk := true, upgradeOk := true } "pr1").status = 424 := by
  have hd := c4_subresource_gating
    { workloads := [wlDispatching], configs := [], ssarAllowed := true,
      downstreamOk := true, upgradeOk := true }
    100 "pr2" "p1" "step"
    { pod := "p1", container := "step", pipelineRun := "pr2",
      sinceSeconds := "", tailLines := "" }
    { name := "", state := "Dispatching", nominatedClusters := [], workloadName := "w2" }
    rfl (by decide) rfl
  have ha := c4_subresource_gating
    { workloads := [wlAdmitted], configs := [], ssarAllowed := true,
      downstreamOk := true, upgradeOk := true }
    100 "pr1" "p1" "step"
    { pod := "p1", container := "step", pipelineRun := "pr1",
      sinceSeconds := "", tailLines := "" }
    { name := "c1", state := "Admitted", nominatedClusters := [], workloadName := "w1" }
    rfl (by decide) rfl
  exact ⟨(hd.1 (by decide)).1.1, (ha.2 rfl rfl).1.1⟩

/-- The per-request environment of the C5 counterexample: an authorized
caller, an admitted workload on cluster `c1` which is present in the
registry, and a failing downstream worker-cluster call. -/
def envDownstreamFail : Env :=
  { workloads := [wlAdmitted], configs := [("c1", cfg1)],
    ssarAllowed := true, downstreamOk := false, upgradeOk := true }

/-- The log query of the concrete log-request fixtures. -/
def qLogs : LogsQuery :=
  { pod := "p1", container := "step", pipelineRun := "pr1",
    sinceSeconds := "", tailLines := "" }

/-- C5 (code bug): when the single downstream worker-cluster attempt fails,
every sub-resource handler surfaces HTTP 500 — not the 502/504 required by
the spec and by the repository's own error-code table — while indeed making
exactly one downstream attempt. -/
theorem c5_downstream_failure_is_500 :
    ((handleTaskRuns envDownstreamFail "pr1").status = 500
      ∧ (handleTaskRuns envDownstreamFail "pr1").downstreamAttempts = 1)
    ∧ ((handlePipelineRunPods envDownstreamFail "pr1").status = 500
      ∧ (handlePipelineRunPods envDownstreamFail "pr1").downstreamAttempts = 1)
    ∧ ((handlePodStatus envDownstreamFail "pr1" "p1").status = 500
      ∧ (handlePodStatus envDownstreamFail "pr1" "p1").downstreamAttempts = 1)
    ∧ ((handleLogsFetch envDownstreamFail 100 qLogs "p1" "step").status = 500
      ∧ (handleLogsFetch envDownstreamFail 100 qLogs "p1" "step").downstreamAttempts = 1)
    ∧ ((handleLogsStream envDownstreamFail qLogs "p1" "step").status = 500
      ∧ (handleLogsStream envDownstreamFail qLogs "p1" "step").downstreamAttempts = 1)
    ∧ ((500 : Nat) ≠ 502 ∧ (500 : Nat) ≠ 504) := by
  refine ⟨⟨rfl, rfl⟩, ⟨rfl, rfl⟩, ⟨rfl, rfl⟩, ⟨rfl, rfl⟩, ⟨rfl, rfl⟩, by decide, by decide⟩

/-- The per-request environment of the C6 counterexample: everything
succeeds, including the downstream log stream and the WebSocket upgrade. -/
def envStreamOk : Env :=
  { workloads := [wlAdmitted], configs := [("c1", cfg1)],
    ssarAllowed := true, downstreamOk := true, upgradeOk := true }

/-- C6 (code bug): a successful unbounded log stream reaches the worker
cluster (one downstream attempt, upgrade completed) yet its response carries
no `X-Worker-Cluster` header, while the bounded log fetch on the same state
does carry it — contradicting the claim that every worker-touching response
carries the resolved cluster name. -/
theorem c6_stream_missing_cluster_header :
    (handleLogsStream envStreamOk qLogs "p1" "step").downstreamAttempts = 1
    ∧ (handleLogsStream envStreamOk qLogs "p1" "step").status = 101
    ∧ "X-Worker-Cluster" ∉
        ((handleLogsStream envStreamOk qLogs "p1" "step").headers.map Prod.fst)
    ∧ ("X-Worker-Cluster", "c1") ∈
        (handleLogsFetch envStreamOk 100 qLogs "p1" "step").headers := by
  refine ⟨rfl, rfl, ?_, ?_⟩
  · show "X-Worker-Cluster" ∉ ([] : List String)
    simp
  · show ("X-Worker-Cluster", "c1") ∈
      [("Content-Type", "text/plain"), ("X-Worker-Cluster", "c1")]
    simp

/-- Deleting a key removes it from the association map. -/
theorem getAssoc_delAssoc_self {α : Type} (m : List (String × α)) (k : String) :
    getAssoc (delAssoc m k) k = none := by
  induction m with
  | nil => rfl
  | cons p rest ih =>
    obtain ⟨k0, v0⟩ := p
    by_cases h : k0 = k
    · simp [delAssoc, h, ih]
    · simp [delAssoc, getAssoc, h, ih]

/-- Deleting one key leaves every other key's entry unchanged. -/
theorem getAssoc_delAssoc_ne {α : Type} (m : List (String × α)) (x k : String)
    (h : k ≠ x) : getAssoc (delAssoc m x) k = getAssoc m k := by
  induction m with
  | nil => rfl
  | cons p rest ih =>
    obtain ⟨k0, v0⟩ := p
    by_cases h0 : k0 = x
    · have hk : ¬ k0 = k := by rw [h0]; exact fun hc => h hc.symm
      simp [delAssoc, getAssoc, h0, hk, ih, Ne.symm h]
    · simp only [delAssoc, h0, if_false]
      by_cases hk : k0 = k
      · simp [getAssoc, hk]
      · simp [getAssoc, hk, ih]

/-- Assigning a key keeps every present entry present. -/
theorem getAssoc_setAssoc_isSome {α : Type} (m : List (String × α))
    (a : String) (b : α) (k : String) (h : (getAssoc m k).isSome = true) :
    (getAssoc (setAssoc m a b) k).isSome = true := by
  induction m with
  | nil => simp [getAssoc] at h
  | cons p rest ih =>
    obtain ⟨k0, v0⟩ := p
    by_cases h0 : k0 = a
    · by_cases hk : a = k
      · simp [setAssoc, getAssoc, h0, hk]
      · have hk0 : ¬ k0 = k := by rw [h0]; exact hk
        simp only [getAssoc, hk0, if_false] at h
        simp [setAssoc, getAssoc, h0, hk, h]
    · by_cases hk : k0 = k
      · have hka : ¬ k = a := by rw [← hk]; exact h0
        simp [setAssoc, getAssoc, h0, hk, hka]
      · simp only [getAssoc, hk, if_false] at h
        simp [setAssoc, getAssoc, h0, hk, ih h]

/-- The `LoadConfigs` fold over any cluster list only inserts or updates:
an entry present before the resync is still present after it. -/
theorem loadConfigs_fold_preserves (env : RegistryEnv)
    (cs : List MultiKueueCluster) (m : List (String × RestConfig)) (k : String)
    (h : (getAssoc m k).isSome = true) :
    (getAssoc (cs.foldl (loadStep env) m) k).isSome = true := by
  induction cs generalizing m with
  | nil => exact h
  | cons c rest ih =>
    rw [List.foldl_cons]
    apply ih
    cases hr : resolveClusterConfig env c with
    | none => simpa [loadStep, hr] using h
    | some cfg =>
      simp only [loadStep, hr]
      exact getAssoc_setAssoc_isSome m c.name cfg k h

/-- C7: any single cluster whose configuration fails to resolve — an
unsupported location type, an empty location, a missing secret, a secret
without the `kubeconfig` key, or an unparseable kubeconfig — contributes
nothing to the staged set, and the resync of all remaining clusters is
exactly the resync without that cluster (it neither fails nor aborts). -/
theorem c7_single_failure_skipped (env : RegistryEnv)
    (pre post : List MultiKueueCluster) (c : MultiKueueCluster)
    (m : List (String × RestConfig))
    (h : c.kubeConfig.locationType ≠ "Secret"
      ∨ c.kubeConfig.location = ""
      ∨ getAssoc env.secrets c.kubeConfig.location = none
      ∨ (∀ s, getAssoc env.secrets c.kubeConfig.location = some s →
          getAssoc s.data "kubeconfig" = none)
      ∨ (∀ s kubeconfigData, getAssoc env.secrets c.kubeConfig.location = some s →
          getAssoc s.data "kubeconfig" = some kubeconfigData →
          env.parseKubeconfig kubeconfigData = none)) :
    resolveClusterConfig env c = none
    ∧ LoadConfigs { env with clusters := pre ++ c :: post } m
        = LoadConfigs { env with clusters := pre ++ post } m := by
  have hnone : resolveClusterConfig env c = none := by
    simp only [resolveClusterConfig]
    split
    · rfl
    next h1 =>
      split
      · rfl
      next h2 =>
        split
        · rfl
        next s hs =>
          split
          · rfl
          next kubeconfigData hd =>
            rcases h with h1' | h2' | h3' | h4' | h5'
            · exact absurd h1' h1
            · exact absurd h2' h2
            · rw [h3'] at hs; cases hs
            · rw [h4' s hs] at hd; cases hd
            · exact h5' s kubeconfigData hs hd
  refine ⟨hnone, ?_⟩
  have e1 : LoadConfigs { env with clusters := pre ++ c :: post } m
      = (pre ++ c :: post).foldl (loadStep env) m := rfl
  have e2 : LoadConfigs { env with clusters := pre ++ post } m
      = (pre ++ post).foldl (loadStep env) m := rfl
  have hskip : ∀ acc, loadStep env acc c = acc := by
    intro acc
    simp [loadStep, hnone]
  rw [e1, e2, List.foldl_append, List.foldl_append, List.foldl_cons,
    hskip (pre.foldl (loadStep env) m)]

/-- C7 witness: a cluster pointing at an unsupported location type is
skipped and the other cluster still resyncs. -/
theorem c7_single_failure_skipped_witness :
    resolveClusterConfig
        { clusters := [], secrets := [], parseKubeconfig := fun _ => none }
        { name := "bad", kubeConfig := { locationType := "URL", location := "u" } }
      = none := by
  have h := c7_single_failure_skipped
    { clusters := [], secrets := [], parseKubeconfig := fun _ => none }
    [] []
    { name := "bad", kubeConfig := { locationType := "URL", location := "u" } }
    [] (Or.inl (by decide))
  exact h.1

/-- C8: a deletion event for cluster `x` removes exactly the entry of `x`
and leaves every other entry unchanged; a full resync (`LoadConfigs`, run on
ADDED/MODIFIED events) only inserts or updates, never removing a present
entry; and any watch event that is not a deletion of `k` keeps `k`'s entry
present. -/
theorem c8_deletion_exact_frame (env : RegistryEnv)
    (configs : List (String × RestConfig)) (x k : String) (v : RestConfig) :
    getAssoc (delAssoc configs x) x = none
    ∧ (k ≠ x → getAssoc (delAssoc configs x) k = getAssoc configs k)
    ∧ (getAssoc configs k = some v →
        (getAssoc (LoadConfigs env configs) k).isSome = true)
    ∧ (∀ event : WatchEvent,
        (∀ cluster, event = WatchEvent.deleted cluster → cluster.name ≠ k) →
        getAssoc configs k = some v →
        (getAssoc (watchStep env configs event) k).isSome = true) := by
  refine ⟨getAssoc_delAssoc_self configs x, ?_, ?_, ?_⟩
  · intro hk
    exact getAssoc_delAssoc_ne configs x k hk
  · intro hv
    exact loadConfigs_fold_preserves env env.clusters configs k (by rw [hv]; rfl)
  · intro event hdel hv
    cases event with
    | added cluster =>
      exact loadConfigs_fold_preserves env env.clusters configs k (by rw [hv]; rfl)
    | modified cluster =>
      exact loadConfigs_fold_preserves env env.clusters configs k (by rw [hv]; rfl)
    | deleted cluster =>
      have hk : cluster.name ≠ k := hdel cluster rfl
      rw [watchStep, getAssoc_delAssoc_ne configs cluster.name k
        (fun hc => hk hc.symm), hv]
      rfl

/-- C8 witness: deleting cluster `a` removes its entry, leaves `b`'s entry
unchanged, and a MODIFIED-event resync keeps `b` present. -/
theorem c8_deletion_exact_frame_witness :
    getAssoc (delAssoc [("a", cfg1), ("b", cfg1)] "a") "a" = none
    ∧ getAssoc (delAssoc [("a", cfg1), ("b", cfg1)] "a") "b"
        = getAssoc [("a", cfg1), ("b", cfg1)] "b"
    ∧ (getAssoc
        (watchStep { clusters := [], secrets := [], parseKubeconfig := fun _ => none }
          [("a", cfg1), ("b", cfg1)]
          (WatchEvent.modified
            { name := "a", kubeConfig := { locationType := "Secret", location := "s" } }))
        "b").isSome = true := by
  have h := c8_deletion_exact_frame
    { clusters := [], secrets := [], parseKubeconfig := fun _ => none }
    [("a", cfg1), ("b", cfg1)] "a" "b" cfg1
  refine ⟨h.1, h.2.1 (by decide), ?_⟩
  exact h.2.2.2
    (WatchEvent.modified
      { name := "a", kubeConfig := { locationType := "Secret", location := "s" } })
    (fun cluster hc => by cases hc) rfl

/-- The since-seconds value influences `logsFetchAfterParams` only through
the positivity test that decides the since-time filter. -/
theorem logsFetchAfterParams_since_irrel (env : Env) (pipelineRunName : String)
    (s1 s2 t : Int) (podName containerName : String)
    (h : decide (s1 > 0) = decide (s2 > 0)) :
    logsFetchAfterParams env pipelineRunName s1 t podName containerName
      = logsFetchAfterParams env pipelineRunName s2 t podName containerName := by
  simp only [logsFetchAfterParams]
  rw [h]

/-- With a present PipelineRun parameter, `logsFetchAfterParams` never
answers 400. -/
theorem logsFetchAfterParams_status_ne_400 (env : Env) (pipelineRunName : String)
    (s t : Int) (podName containerName : String) (hpr : pipelineRunName ≠ "") :
    (logsFetchAfterParams env pipelineRunName s t podName containerName).status ≠ 400 := by
  rw [logsFetchAfterParams, if_neg hpr]
  cases hres : ResolveWorkerCluster env.workloads pipelineRunName with
  | error e => simp
  | ok wc =>
    by_cases hst : wc.state = "Admitted"
    · cases hcfg : GetConfig env.configs wc.name with
      | error e => simp [hst, hcfg]
      | ok cfg => by_cases hds : env.downstreamOk <;> simp [hst, hcfg, hds]
    · simp [hst]

/-- Whenever `logsFetchAfterParams` records log options, they are exactly
the tail-line count and the positivity of the since-seconds value it was
given (with follow disabled). -/
theorem logsFetchAfterParams_logOptions (env : Env) (pipelineRunName : String)
    (s t : Int) (podName containerName : String) (o : PodLogOptions)
    (ho : (logsFetchAfterParams env pipelineRunName s t podName containerName).logOptions
      = some o) :
    o = { container := containerName, tailLines := some t,
          follow := false, sinceTimeSet := decide (s > 0) } := by
  by_cases hpr : pipelineRunName = ""
  · rw [logsFetchAfterParams, if_pos hpr] at ho
    cases ho
  · rw [logsFetchAfterParams, if_neg hpr] at ho
    revert ho
    cases hres : ResolveWorkerCluster env.workloads pipelineRunName with
    | error e => intro ho; cases ho
    | ok wc =>
      intro ho
      by_cases hst : wc.state = "Admitted"
      · cases hcfg : GetConfig env.configs wc.name with
        | error e => simp [hst, hcfg] at ho
        | ok cfg =>
          by_cases hds : env.downstreamOk <;>
            simp [hst, hcfg, hds] at ho <;>
            exact ho.symm
      · simp [hst] at ho

/-- C10: on the bounded log fetch the two query parameters are lenient
independently, for every request: a `tailLines` value that fails to parse is
silently ignored — the handler behaves exactly as if the parameter were
absent and any recorded log options carry the configured default tail —
whatever `sinceSeconds` holds; a `sinceSeconds` value that is absent,
malformed, or not strictly positive is silently ignored — the handler
behaves exactly as if it were absent and no since-time filter is applied —
whatever `tailLines` holds; and neither parameter can ever cause a 400 (the
only 400 comes from a missing PipelineRun parameter). -/
theorem c10_log_query_leniency (env : Env) (defaultTail : Int) (q : LogsQuery)
    (podName containerName : String) :
    (parseGoInt64 q.tailLines = none →
        handleLogsFetch env defaultTail q podName containerName
          = handleLogsFetch env defaultTail
              { q with tailLines := "" } podName containerName
        ∧ (∀ o, (handleLogsFetch env defaultTail q podName containerName).logOptions
              = some o → o.tailLines = some defaultTail))
    ∧ ((∀ v, parseGoInt64 q.sinceSeconds = some v → v ≤ 0) →
        handleLogsFetch env defaultTail q podName containerName
          = handleLogsFetch env defaultTail
              { q with sinceSeconds := "" } podName containerName
        ∧ (∀ o, (handleLogsFetch env defaultTail q podName containerName).logOptions
              = some o → o.sinceTimeSet = false))
    ∧ (q.pipelineRun ≠ "" →
        (handleLogsFetch env defaultTail q podName containerName).status ≠ 400) := by
  have hL : handleLogsFetch env defaultTail q podName containerName
      = logsFetchAfterParams env q.pipelineRun
          (if q.sinceSeconds ≠ "" then
            match parseGoInt64 q.sinceSeconds with
            | some since => since
            | none => 0
          else 0)
          (if q.tailLines ≠ "" then
            match parseGoInt64 q.tailLines with
            | some tail => tail
            | none => defaultTail
          else defaultTail)
          podName containerName := rfl
  refine ⟨?_, ?_, ?_⟩
  · intro htail
    have hTail : (if q.tailLines ≠ "" then
        match parseGoInt64 q.tailLines with
        | some tail => tail
        | none => defaultTail
      else defaultTail) = defaultTail := by
      by_cases ht : q.tailLines = "" <;> simp [ht, htail]
    constructor
    · rw [hL, hTail]
      rfl
    · intro o ho
      rw [hL, hTail] at ho
      have := logsFetchAfterParams_logOptions env q.pipelineRun _ defaultTail
        podName containerName o ho
      rw [this]
  · intro hsince
    have hSince : (if q.sinceSeconds ≠ "" then
        match parseGoInt64 q.sinceSeconds with
        | some since => since
        | none => 0
      else 0) ≤ 0 := by
      by_cases hs : q.sinceSeconds = ""
      · simp [hs]
      · cases hp : parseGoInt64 q.sinceSeconds with
        | none => simp [hs, hp]
        | some v => simpa [hs, hp] using hsince v hp
    have hdec : decide ((if q.sinceSeconds ≠ "" then
        match parseGoInt64 q.sinceSeconds with
        | some since => since
        | none => 0
      else 0) > 0) = decide ((0 : Int) > 0) := by
      rw [decide_eq_false (by omega), decide_eq_false (by omega)]
    constructor
    · rw [hL]
      have hR : handleLogsFetch env defaultTail
            { q with sinceSeconds := "" } podName containerName
          = logsFetchAfterParams env q.pipelineRun 0
              (if q.tailLines ≠ "" then
                match parseGoInt64 q.tailLines with
                | some tail => tail
                | none => defaultTail
              else defaultTail)
              podName containerName := rfl
      rw [hR]
      exact logsFetchAfterParams_since_irrel env q.pipelineRun _ 0 _
        podName containerName hdec
    · intro o ho
      rw [hL] at ho
      have := logsFetchAfterParams_logOptions env q.pipelineRun _ _
        podName containerName o ho
      rw [this]
      show decide _ = false
      exact decide_eq_false (by omega)
  · intro hpr
    rw [hL]
    exact logsFetchAfterParams_status_ne_400 env q.pipelineRun _ _
      podName containerName hpr

/-- C10 witness, on the two mixed cases: `tailLines=abc` with a valid
positive `sinceSeconds=5` behaves exactly as with `tailLines` absent, and
`tailLines=50` with malformed `sinceSeconds=xyz` behaves exactly as with
`sinceSeconds` absent. -/
theorem c10_log_query_leniency_witness :
    handleLogsFetch envStreamOk 100
        { pod := "p1", container := "step", pipelineRun := "pr1",
          sinceSeconds := "5", tailLines := "abc" } "p1" "step"
      = handleLogsFetch envStreamOk 100
          { pod := "p1", container := "step", pipelineRun := "pr1",
            sinceSeconds := "5", tailLines := "" } "p1" "step"
    ∧ handleLogsFetch envStreamOk 100
        { pod := "p1", container := "step", pipelineRun := "pr1",
          sinceSeconds := "xyz", tailLines := "50" } "p1" "step"
      = handleLogsFetch envStreamOk 100
          { pod := "p1", container := "step", pipelineRun := "pr1",
            sinceSeconds := "", tailLines := "50" } "p1" "step" := by
  have h1 := (c10_log_query_leniency envStreamOk 100
    { pod := "p1", container := "step", pipelineRun := "pr1",
      sinceSeconds := "5", tailLines := "abc" } "p1" "step").1
    (by decide)
  have h2 := (c10_log_query_leniency envStreamOk 100
    { pod := "p1", container := "step", pipelineRun := "pr1",
      sinceSeconds := "xyz", tailLines := "50" } "p1" "step").2.1
    (fun v hv => by
      rw [show parseGoInt64 "xyz" = none from by decide] at hv
      cases hv)
  exact ⟨h1.1, h2.1⟩

end ProxyAAE
